import Mathlib

/-!
# Raven Off-chain Oracle — verification of the authorization core

Shallow embedding of the RavenOracle class (`ravenOracle.js`): the cost
table (`COSTS`, `getInferenceCost`), the sliding-window rate limiter
(`isRateLimited`), the credit calculator (`calculateCredits`), the
degrading chain readers (`getUserSubscription`, `getUserCredits`) and the
authorization decision procedure (`authorizeInference`).

Modelling conventions:
* JavaScript numbers and on-chain bigints are modelled as `Nat` (balances,
  counters, plan ids, timestamps) or `Int` (quantities, costs, credit
  calculator parameters); `===`/`==` comparisons become equality on those.
* Failing external reads (the `try/catch` blocks around contract calls)
  are modelled by a `Chain` record of `Except`-valued readers; the wrapper
  functions perform the catch, exactly as the source does.
* `authorizeInference` is factored as a pure decision (`authorizeDecision`)
  paired with the state update, which in the source is performed entirely
  inside the single `isRateLimited` call at the top (the decision call
  never touches the initial-grant guard); the pairing is faithful because
  every return path of the source leaves the state identically updated.
-/

namespace RavenOracle

/-- `this.COSTS`: inference mode → unit credit cost; `none` for a mode
outside the table (the JS object lookup yields `undefined`). -/
def COSTS (mode : String) : Option Int :=
  if mode = "basic" then some 1
  else if mode = "tags" then some 2
  else if mode = "price_accuracy" then some 4
  else if mode = "full" then some 6
  else none

/-- `this.GLOBAL_PRICE_ACCURACY_CAP`: global cap across all tiers. -/
def GLOBAL_PRICE_ACCURACY_CAP : Int := 3000

/-- `this.RATE_LIMIT_PER_MINUTE`: per-user request threshold. -/
def RATE_LIMIT_PER_MINUTE : Nat := 30

/-- `windowMs` in `isRateLimited`: 60 * 1000 milliseconds. -/
def WINDOW_MS : Nat := 60000

/-- `this.AI_INFERENCE_PROMPTS_PER_CREDIT` (= 2 in the class). -/
def AI_INFERENCE_PROMPTS_PER_CREDIT : Int := 2

/-- `this.REFERRAL_CREDIT_AMOUNT` (= 6). -/
def REFERRAL_CREDIT_AMOUNT : Int := 6

/-- `this.SOCIAL_QUEST_CREDIT_AMOUNT` (= 2). -/
def SOCIAL_QUEST_CREDIT_AMOUNT : Int := 2

/-- `this.MAX_SOCIAL_QUESTS_PER_USER` (= 5). -/
def MAX_SOCIAL_QUESTS_PER_USER : Int := 5

/-- The validation errors thrown by `getInferenceCost`:
`Unknown mode` and `quantity must be > 0`. -/
inductive OracleError where
  | unknownMode
  | invalidQuantity
deriving DecidableEq, Repr

/-- `getInferenceCost(mode, quantity)`: looks up the unit cost, throwing
`Unknown mode` when the lookup fails, then `quantity must be > 0` when the
quantity is not positive, else returns `unit * quantity`.  (The JS
`Number.isFinite` half of the quantity check is vacuous over `Int`.) -/
def getInferenceCost (mode : String) (quantity : Int) : Except OracleError Int :=
  match COSTS mode with
  | none => .error .unknownMode
  | some unit =>
    if quantity ≤ 0 then .error .invalidQuantity
    else .ok (unit * quantity)

/-- `calculateCredits(reason, parameter)`: pure accrual calculator.
`Math.floor(parameter / n)` on a real-valued quotient is floor division,
i.e. `Int.fdiv`. -/
def calculateCredits (reason : String) (parameter : Int) : Int :=
  if reason = "ai_inference" ∨ reason = "prompt_streak" then
    Int.fdiv parameter AI_INFERENCE_PROMPTS_PER_CREDIT
  else if reason = "referral" then
    parameter * REFERRAL_CREDIT_AMOUNT
  else if reason = "social_quest" then
    min parameter MAX_SOCIAL_QUESTS_PER_USER * SOCIAL_QUEST_CREDIT_AMOUNT
  else
    parameter

/-- Embedded plan record (`plan: { priceUnits, monthlyCap, active }`). -/
structure Plan where
  priceUnits : Nat
  monthlyCap : Nat
  active : Bool
deriving DecidableEq, Repr

/-- `SubscriptionSnapshot` as assembled by `getUserSubscription`. -/
structure Subscription where
  planId : Nat
  startTimestamp : Nat
  usedThisWindow : Nat
  lastRenewedAt : Nat
  plan : Plan
deriving DecidableEq, Repr

/-- The external ledger: the three raw contract views the oracle calls
(`getUserSubscription`, `plans`, `getUserCredits`), each of which may
throw (modelled by `Except Unit`).  The `getUserSubscription` tuple is
`(planId, startTs, usedThisWindow, lastRenewedAt, planMonthlyCap,
planPriceUnits)`; the `plans` tuple is `(priceUnits, monthlyCap, active)`. -/
structure Chain where
  getUserSubscriptionRaw : String → Except Unit (Nat × Nat × Nat × Nat × Nat × Nat)
  plansRaw : Nat → Except Unit (Nat × Nat × Bool)
  getUserCreditsRaw : String → Except Unit Nat

/-- `RavenOracle.getUserSubscription`: calls the view helper, fetches the
`active` flag from `plans(planId)` only when `planId > 0`, and catches any
failure by returning `null` (here `none`). -/
def getUserSubscription (c : Chain) (userAddress : String) : Option Subscription :=
  match c.getUserSubscriptionRaw userAddress with
  | .error _ => none
  | .ok (planId, startTs, usedThisWindow, lastRenewedAt, planMonthlyCap, planPriceUnits) =>
    if 0 < planId then
      match c.plansRaw planId with
      | .error _ => none
      | .ok (_, _, active) =>
        some ⟨planId, startTs, usedThisWindow, lastRenewedAt,
              ⟨planPriceUnits, planMonthlyCap, active⟩⟩
    else
      some ⟨planId, startTs, usedThisWindow, lastRenewedAt,
            ⟨planPriceUnits, planMonthlyCap, false⟩⟩

/-- `RavenOracle.getUserCredits`: returns the balance, degrading to zero
on any read failure. -/
def getUserCredits (c : Chain) (userAddress : String) : Nat :=
  match c.getUserCreditsRaw userAddress with
  | .error _ => 0
  | .ok n => n

/-- `isRateLimited` acting on the timestamp array of one user: filters to the
trailing window, reports whether the filtered count has reached the
threshold, and always appends `now` (the JS `recent.push(now)`).
Returns `(limited, updated array)`. -/
def isRateLimited (arr : List Nat) (now : Nat) : Bool × List Nat :=
  let recent := arr.filter (fun t => now - t ≤ WINDOW_MS)
  let limited := decide (RATE_LIMIT_PER_MINUTE ≤ recent.length)
  (limited, recent ++ [now])

/-- The in-memory mutable state of the oracle: `this._rateLimiter` (a map with
`[]` default) and `this._grantedInitial` (a set, as its membership
function). -/
structure OracleState where
  rateLimiter : String → List Nat
  grantedInitial : String → Bool

/-- `AuthorizationDecision`: the structured result of `authorizeInference`. -/
structure Decision where
  allowed : Bool
  method : String
  reason : String
  cost : Int
deriving DecidableEq, Repr

/-- The step-3 guard of `authorizeInference`:
`!this._grantedInitial.has(user) && credits === 0n &&
 (!subscription || subscription.planId === 0)`. -/
def initialGrantCond (guardHas : Bool) (credits : Nat)
    (subscription : Option Subscription) : Bool :=
  !guardHas && decide (credits = 0) &&
    (match subscription with
     | none => true
     | some s => decide (s.planId = 0))

/-- `isSubscribed = !!subscription && Number(subscription.planId) > 0 &&
subscription.plan.active`. -/
def isSubscribedOf (subscription : Option Subscription) : Bool :=
  match subscription with
  | none => false
  | some s => decide (0 < s.planId) && s.plan.active

/-- The cap check duplicated verbatim in steps 4 and 6 of
`authorizeInference`: `used + quantity <= effectiveCap`, where
`effectiveCap` is the global cap for the cap-exempt modes and the per-plan
`monthlyCap` otherwise. -/
def subCapOk (s : Subscription) (isPriceAccuracyMode : Bool) (quantity : Int) : Bool :=
  decide ((s.usedThisWindow : Int) + quantity ≤
    (if isPriceAccuracyMode then GLOBAL_PRICE_ACCURACY_CAP else (s.plan.monthlyCap : Int)))

/-- `subCapOk` lifted to the nullable subscription; only consulted under
`isSubscribed`, which already implies the subscription is present. -/
def subCapOkOpt (subscription : Option Subscription) (isPriceAccuracyMode : Bool)
    (quantity : Int) : Bool :=
  match subscription with
  | none => false
  | some s => subCapOk s isPriceAccuracyMode quantity

/-- The decision component of `authorizeInference(userAddress, mode,
quantity)`, following the source branch by branch: (1) rate limit,
(3) initial one-time grant, cost computation (which throws), (4) prefer
subscription, (5) charge credits, (6) redundant subscription fallback,
final deny. -/
def authorizeDecision (c : Chain) (st : OracleState) (now : Nat)
    (userAddress mode : String) (quantity : Int) : Except OracleError Decision :=
  if (isRateLimited (st.rateLimiter userAddress) now).1 then
    .ok ⟨false, "deny", "rate_limited", 0⟩
  else
    let subscription := getUserSubscription c userAddress
    let credits := getUserCredits c userAddress
    if initialGrantCond (st.grantedInitial userAddress) credits subscription then
      .ok ⟨true, "initial_grant", "initial_50_credits", 0⟩
    else
      let isSubscribed := isSubscribedOf subscription
      match getInferenceCost mode quantity with
      | .error e => .error e
      | .ok cost =>
        let isPriceAccuracyMode := mode == "price_accuracy" || mode == "full"
        if isSubscribed && subCapOkOpt subscription isPriceAccuracyMode quantity then
          .ok ⟨true, "subscription", "within_subscription_cap", 0⟩
        else if decide ((credits : Int) ≥ cost) then
          .ok ⟨true, "credits", "sufficient_credits", cost⟩
        else if isSubscribed && subCapOkOpt subscription isPriceAccuracyMode quantity then
          .ok ⟨true, "subscription", "fallback_subscription", 0⟩
        else
          .ok ⟨false, "deny", "insufficient_balance_and_cap", cost⟩

/-- `authorizeInference`, with its state effect: every return path has
already executed the single `isRateLimited(userAddress)` call, whose only
effect is writing the filtered-plus-appended timestamp array back into
`this._rateLimiter`; `this._grantedInitial` is never written. -/
def authorizeInference (c : Chain) (st : OracleState) (now : Nat)
    (userAddress mode : String) (quantity : Int) :
    Except OracleError Decision × OracleState :=
  (authorizeDecision c st now userAddress mode quantity,
   ⟨fun u => if u = userAddress then (isRateLimited (st.rateLimiter userAddress) now).2
             else st.rateLimiter u,
    st.grantedInitial⟩)

/-! ## Concrete fixtures used to instantiate the theorems -/

/-- Fixture: every raw ledger read fails. -/
def emptyChain : Chain := ⟨fun _ => .error (), fun _ => .error (), fun _ => .error ()⟩

/-- Fixture: fresh oracle state (no recorded timestamps, empty guard). -/
def initState : OracleState := ⟨fun _ => [], fun _ => false⟩

/-- Fixture: active plan 1 with `monthlyCap = 20`, `usedThisWindow = 10`,
zero credits. -/
def subChain : Chain :=
  ⟨fun _ => .ok (1, 0, 10, 0, 20, 5), fun _ => .ok (5, 20, true), fun _ => .ok 0⟩

/-- Fixture: active plan 2 with `monthlyCap = 5`, `usedThisWindow = 2900`,
zero credits — the cap-exempt example of the spec. -/
def capExemptChain : Chain :=
  ⟨fun _ => .ok (2, 0, 2900, 0, 5, 9), fun _ => .ok (9, 5, true), fun _ => .ok 0⟩

/-- Fixture: no subscription (read fails), credit balance 10. -/
def credChain : Chain := ⟨fun _ => .error (), fun _ => .error (), fun _ => .ok 10⟩

/-- Fixture: no subscription (read fails), credit balance 5. -/
def credChain5 : Chain := ⟨fun _ => .error (), fun _ => .error (), fun _ => .ok 5⟩

/-- Fixture: subscription record present with `planId = 0`, zero credits. -/
def zeroPlanChain : Chain :=
  ⟨fun _ => .ok (0, 0, 0, 0, 10, 5), fun _ => .error (), fun _ => .ok 0⟩

/-- Fixture: a user with 30 timestamps already inside the window. -/
def busyState : OracleState := ⟨fun _ => List.replicate 30 0, fun _ => false⟩

/-! ## Helper lemmas -/

/-- `getInferenceCost` on a known mode and positive quantity. -/
theorem getInferenceCost_ok {mode : String} {unit : Int} (quantity : Int)
    (hmode : COSTS mode = some unit) (hq : 0 < quantity) :
    getInferenceCost mode quantity = .ok (unit * quantity) := by
  simp [getInferenceCost, hmode, not_le.mpr hq]

/-- Every unit cost in the table is positive. -/
theorem COSTS_unit_pos {mode : String} {unit : Int} (h : COSTS mode = some unit) :
    0 < unit := by
  unfold COSTS at h
  split at h <;> [skip; split at h] <;> [skip; skip; split at h] <;>
    [skip; skip; skip; split at h] <;> simp_all <;> omega

/-- The decision component of `authorizeInference`. -/
theorem authorizeInference_fst (c : Chain) (st : OracleState) (now : Nat)
    (userAddress mode : String) (quantity : Int) :
    (authorizeInference c st now userAddress mode quantity).1 =
      authorizeDecision c st now userAddress mode quantity := rfl

/-- `authorizeInference` never writes the initial-grant guard. -/
theorem authorizeInference_grantedInitial (c : Chain) (st : OracleState) (now : Nat)
    (userAddress mode : String) (quantity : Int) :
    (authorizeInference c st now userAddress mode quantity).2.grantedInitial =
      st.grantedInitial := rfl

/-- With a known mode and positive quantity, `authorizeDecision` always
returns a structured decision, never an error. -/
theorem authorizeDecision_ok_of_valid (c : Chain) (st : OracleState) (now : Nat)
    (user mode : String) (quantity unit : Int)
    (hmode : COSTS mode = some unit) (hq : 0 < quantity) :
    ∃ d, authorizeDecision c st now user mode quantity = .ok d := by
  unfold authorizeDecision
  rw [getInferenceCost_ok quantity hmode hq]
  by_cases h1 : (isRateLimited (st.rateLimiter user) now).1 = true
  · exact ⟨⟨false, "deny", "rate_limited", 0⟩, by simp [h1]⟩
  · by_cases h2 : initialGrantCond (st.grantedInitial user) (getUserCredits c user)
        (getUserSubscription c user) = true
    · exact ⟨⟨true, "initial_grant", "initial_50_credits", 0⟩, by simp [h1, h2]⟩
    · by_cases h3 : (isSubscribedOf (getUserSubscription c user) &&
          subCapOkOpt (getUserSubscription c user)
            (mode == "price_accuracy" || mode == "full") quantity) = true
      · exact ⟨⟨true, "subscription", "within_subscription_cap", 0⟩, by simp [h1, h2, h3]⟩
      · by_cases h4 : ((getUserCredits c user : Int) ≥ unit * quantity)
        · exact ⟨⟨true, "credits", "sufficient_credits", unit * quantity⟩,
            by simp [h1, h2, h3, h4]⟩
        · exact ⟨⟨false, "deny", "insufficient_balance_and_cap", unit * quantity⟩,
            by simp [h1, h2, h3, h4]⟩

/-- Enumeration of the decisions `authorizeDecision` can return: every
`.ok` result is one of the five literal decisions of the source, and the
two that carry a non-trivial `cost` field carry exactly the value computed
by `getInferenceCost`. -/
theorem authorizeDecision_cases (c : Chain) (st : OracleState) (now : Nat)
    (user mode : String) (quantity : Int) (d : Decision)
    (hok : authorizeDecision c st now user mode quantity = .ok d) :
    d = ⟨false, "deny", "rate_limited", 0⟩ ∨
    d = ⟨true, "initial_grant", "initial_50_credits", 0⟩ ∨
    d = ⟨true, "subscription", "within_subscription_cap", 0⟩ ∨
    d = ⟨true, "subscription", "fallback_subscription", 0⟩ ∨
    (∃ cost, getInferenceCost mode quantity = .ok cost ∧
      (d = ⟨true, "credits", "sufficient_credits", cost⟩ ∨
       d = ⟨false, "deny", "insufficient_balance_and_cap", cost⟩)) := by
  unfold authorizeDecision at hok
  by_cases h1 : (isRateLimited (st.rateLimiter user) now).1 = true
  · simp [h1] at hok
    exact Or.inl hok.symm
  · simp only [Bool.not_eq_true] at h1
    simp only [h1, Bool.false_eq_true, if_false] at hok
    by_cases h2 : initialGrantCond (st.grantedInitial user) (getUserCredits c user)
        (getUserSubscription c user) = true
    · simp [h2] at hok
      exact Or.inr (Or.inl hok.symm)
    · simp only [Bool.not_eq_true] at h2
      simp only [h2, Bool.false_eq_true, if_false] at hok
      cases hc : getInferenceCost mode quantity with
      | error e => simp [hc] at hok
      | ok cost =>
        simp only [hc] at hok
        by_cases h3 : (isSubscribedOf (getUserSubscription c user) &&
            subCapOkOpt (getUserSubscription c user)
              (mode == "price_accuracy" || mode == "full") quantity) = true
        · simp [h3] at hok
          exact Or.inr (Or.inr (Or.inl hok.symm))
        · simp only [Bool.not_eq_true] at h3
          simp only [h3, Bool.false_eq_true, if_false] at hok
          by_cases h4 : ((getUserCredits c user : Int) ≥ cost)
          · simp [h4] at hok
            exact Or.inr (Or.inr (Or.inr (Or.inr ⟨cost, rfl, Or.inl hok.symm⟩)))
          · simp [h4, h3] at hok
            exact Or.inr (Or.inr (Or.inr (Or.inr ⟨cost, rfl, Or.inr hok.symm⟩)))

/-! ## Claims -/

/-- Claim C1: for every authorization call that is not rate-limited, if the
fetched subscription is present with `planId > 0` and an active plan, the
mode is in the cost table, the quantity is positive, and
`usedThisWindow + quantity ≤ effectiveCap` — where `effectiveCap` is the
global cap 3000 for modes `price_accuracy` and `full` and the per-plan
`monthlyCap` otherwise — then the decision is
`{allowed: true, method: subscription, reason: within_subscription_cap,
cost: 0}`.  (Such a call cannot take the initial-grant branch, whose
subscription condition is contradicted by `planId > 0`.) -/
theorem subscription_within_cap_allows
    (c : Chain) (st : OracleState) (now : Nat) (user mode : String)
    (quantity unit : Int) (s : Subscription)
    (hrl : (isRateLimited (st.rateLimiter user) now).1 = false)
    (hsub : getUserSubscription c user = some s)
    (hpid : 0 < s.planId)
    (hact : s.plan.active = true)
    (hmode : COSTS mode = some unit)
    (hq : 0 < quantity)
    (hcap : (s.usedThisWindow : Int) + quantity ≤
      (if mode = "price_accuracy" ∨ mode = "full" then GLOBAL_PRICE_ACCURACY_CAP
       else (s.plan.monthlyCap : Int))) :
    (authorizeInference c st now user mode quantity).1 =
      .ok ⟨true, "subscription", "within_subscription_cap", 0⟩ := by
  have hpid0 : s.planId ≠ 0 := Nat.pos_iff_ne_zero.mp hpid
  have hig : initialGrantCond (st.grantedInitial user) (getUserCredits c user)
      (some s) = false := by
    simp [initialGrantCond, hpid0]
  have hcap2 : subCapOk s (mode == "price_accuracy" || mode == "full") quantity = true := by
    by_cases hm : mode = "price_accuracy" ∨ mode = "full"
    · have hb : (mode == "price_accuracy" || mode == "full") = true := by
        rcases hm with hm | hm <;> simp [hm]
      rw [hb]
      rw [if_pos hm] at hcap
      simpa [subCapOk] using hcap
    · have hb : (mode == "price_accuracy" || mode == "full") = false := by
        push_neg at hm
        simp [hm.1, hm.2]
      rw [hb]
      rw [if_neg hm] at hcap
      simpa [subCapOk] using hcap
  have hisub : isSubscribedOf (some s) = true := by
    simp [isSubscribedOf, hpid, hact]
  rw [authorizeInference_fst]
  unfold authorizeDecision
  rw [getInferenceCost_ok quantity hmode hq]
  simp [hrl, hsub, hig, hisub, subCapOkOpt, hcap2]

/-- Witness for C1 at the cap-exempt example of the spec: active plan with
`monthlyCap = 5`, `usedThisWindow = 2900`, mode `full`, quantity 50,
allowed via subscription under the global cap 3000. -/
theorem subscription_within_cap_witness :
    (authorizeInference capExemptChain initState 0 "0xabc" "full" 50).1 =
      .ok ⟨true, "subscription", "within_subscription_cap", 0⟩ :=
  subscription_within_cap_allows capExemptChain initState 0 "0xabc" "full" 50 6
    ⟨2, 0, 2900, 0, ⟨9, 5, true⟩⟩ rfl rfl (by decide) rfl rfl (by decide) (by decide)

/-- Claim C2: for every non-rate-limited call, if the user is not in the
initial-grant guard, the fetched credits equal 0, and the fetched
subscription is absent or has `planId = 0`, then the decision is
`{allowed: true, method: initial_grant, reason: initial_50_credits,
cost: 0}` — for any mode and quantity, valid or not — and the guard set is
unchanged by the call. -/
theorem initial_grant_decision
    (c : Chain) (st : OracleState) (now : Nat) (user mode : String) (quantity : Int)
    (hrl : (isRateLimited (st.rateLimiter user) now).1 = false)
    (hguard : st.grantedInitial user = false)
    (hcred : getUserCredits c user = 0)
    (hsub : getUserSubscription c user = none ∨
        ∃ s, getUserSubscription c user = some s ∧ s.planId = 0) :
    (authorizeInference c st now user mode quantity).1 =
      .ok ⟨true, "initial_grant", "initial_50_credits", 0⟩ ∧
    (authorizeInference c st now user mode quantity).2.grantedInitial =
      st.grantedInitial := by
  have hig : initialGrantCond (st.grantedInitial user) (getUserCredits c user)
      (getUserSubscription c user) = true := by
    rcases hsub with h | ⟨s, h, hz⟩
    · simp [initialGrantCond, h, hguard, hcred]
    · simp [initialGrantCond, h, hguard, hcred, hz]
  refine ⟨?_, rfl⟩
  rw [authorizeInference_fst]
  unfold authorizeDecision
  simp [hrl, hig]

/-- Witness for C2: a present subscription record with `planId = 0`, zero
credits, fresh guard, an unknown mode and a negative quantity. -/
theorem initial_grant_witness :
    (authorizeInference zeroPlanChain initState 0 "0xabc" "bogus" (-3)).1 =
      .ok ⟨true, "initial_grant", "initial_50_credits", 0⟩ ∧
    (authorizeInference zeroPlanChain initState 0 "0xabc" "bogus" (-3)).2.grantedInitial =
      initState.grantedInitial :=
  initial_grant_decision zeroPlanChain initState 0 "0xabc" "bogus" (-3) rfl rfl rfl
    (Or.inr ⟨⟨0, 0, 0, 0, ⟨5, 10, false⟩⟩, rfl, rfl⟩)

/-- Claim C3: when the rate-limit, initial-grant and subscription branches
all decline (and the mode is known with positive quantity, so the cost
computation does not throw), the decision is
`{allowed: true, method: credits, reason: sufficient_credits, cost}` when
the fetched balance covers `cost = unitCost(mode) * quantity`, and
`{allowed: false, method: deny, reason: insufficient_balance_and_cap,
cost}` otherwise.  The step-6 fallback re-checks exactly the declined
subscription condition, so it never fires here. -/
theorem credit_fallback_decision
    (c : Chain) (st : OracleState) (now : Nat) (user mode : String)
    (quantity unit : Int)
    (hrl : (isRateLimited (st.rateLimiter user) now).1 = false)
    (hgrant : initialGrantCond (st.grantedInitial user) (getUserCredits c user)
        (getUserSubscription c user) = false)
    (hmode : COSTS mode = some unit)
    (hq : 0 < quantity)
    (hsubdecl : (isSubscribedOf (getUserSubscription c user) &&
        subCapOkOpt (getUserSubscription c user)
          (mode == "price_accuracy" || mode == "full") quantity) = false) :
    (authorizeInference c st now user mode quantity).1 =
      (if unit * quantity ≤ (getUserCredits c user : Int)
       then .ok ⟨true, "credits", "sufficient_credits", unit * quantity⟩
       else .ok ⟨false, "deny", "insufficient_balance_and_cap", unit * quantity⟩) := by
  rw [authorizeInference_fst]
  unfold authorizeDecision
  rw [getInferenceCost_ok quantity hmode hq]
  simp [hrl, hgrant, hsubdecl, ge_iff_le]

/-- Witness for C3 at the credit-fallback example of the spec: no
subscription, credits 10, mode `tags`, quantity 3, cost 6 → allowed via
credits. -/
theorem credit_fallback_witness :
    (authorizeInference credChain initState 0 "0xabc" "tags" 3).1 =
      .ok ⟨true, "credits", "sufficient_credits", 6⟩ := by
  have h := credit_fallback_decision credChain initState 0 "0xabc" "tags" 3 2
    rfl rfl rfl (by decide) rfl
  simpa using h

/-- Claim C4: a user with at least `RATE_LIMIT_PER_MINUTE = 30` recorded
timestamps inside the trailing 60-second window is denied with reason
`rate_limited` and cost 0; the result does not depend on the external
ledger in any way (no external read is performed); and the current
timestamp is still appended to the pruned per-user sequence, keeping the
limited window hot. -/
theorem rate_limited_denies
    (st : OracleState) (now : Nat) (user mode : String) (quantity : Int)
    (hlim : RATE_LIMIT_PER_MINUTE ≤
      ((st.rateLimiter user).filter (fun t => now - t ≤ WINDOW_MS)).length) :
    (∀ c, (authorizeInference c st now user mode quantity).1 =
        .ok ⟨false, "deny", "rate_limited", 0⟩) ∧
    (∀ c₁ c₂, authorizeInference c₁ st now user mode quantity =
        authorizeInference c₂ st now user mode quantity) ∧
    (∀ c, (authorizeInference c st now user mode quantity).2.rateLimiter user =
        (st.rateLimiter user).filter (fun t => now - t ≤ WINDOW_MS) ++ [now]) := by
  have hb : (isRateLimited (st.rateLimiter user) now).1 = true := by
    simpa [isRateLimited] using hlim
  refine ⟨fun c => ?_, fun c₁ c₂ => ?_, fun c => ?_⟩
  · rw [authorizeInference_fst]
    unfold authorizeDecision
    simp [hb]
  · have e1 : (authorizeInference c₁ st now user mode quantity).1 =
        (authorizeInference c₂ st now user mode quantity).1 := by
      rw [authorizeInference_fst, authorizeInference_fst]
      unfold authorizeDecision
      simp [hb]
    exact Prod.ext e1 rfl
  · simp [authorizeInference, isRateLimited]

/-- Witness for C4: a user with 30 timestamps at time 0 in the window is
denied as rate-limited even against a failing ledger. -/
theorem rate_limited_witness :
    (authorizeInference emptyChain busyState 0 "0xabc" "basic" 1).1 =
      .ok ⟨false, "deny", "rate_limited", 0⟩ :=
  (rate_limited_denies busyState 0 "0xabc" "basic" 1 (by decide)).1 emptyChain

/-- Inversion for `getInferenceCost`: a successful cost is the unit cost
times the quantity. -/
theorem getInferenceCost_ok_inv {mode : String} {unit cost quantity : Int}
    (hmode : COSTS mode = some unit)
    (hc : getInferenceCost mode quantity = .ok cost) : cost = unit * quantity := by
  unfold getInferenceCost at hc
  rw [hmode] at hc
  dsimp only at hc
  split at hc
  · cases hc
  · cases hc
    rfl

/-- Claim C5 counterexample: with an unknown mode (`COSTS` lookup fails)
the call does not fail with a validation error at all — the initial-grant
branch, which is evaluated after the external reads and before the cost
computation, returns an initial-grant decision. -/
theorem validation_counterexample :
    COSTS "bogus" = none ∧
    (authorizeInference emptyChain initState 0 "0xabc" "bogus" 1).1 =
      .ok ⟨true, "initial_grant", "initial_50_credits", 0⟩ := ⟨rfl, rfl⟩

/-- Claim C5 as amended: with `quantity ≤ 0` or a mode outside the cost
table, `authorizeInference` fails with the corresponding validation error
only when the call is neither rate-limited nor takes the initial-grant
branch; the validation happens as part of computing the cost, after the
external reads. -/
theorem validation_error_after_branches
    (c : Chain) (st : OracleState) (now : Nat) (user mode : String) (quantity : Int)
    (hrl : (isRateLimited (st.rateLimiter user) now).1 = false)
    (hgrant : initialGrantCond (st.grantedInitial user) (getUserCredits c user)
        (getUserSubscription c user) = false)
    (hbad : COSTS mode = none ∨ quantity ≤ 0) :
    (authorizeInference c st now user mode quantity).1 =
      .error (match COSTS mode with
              | none => OracleError.unknownMode
              | some _ => OracleError.invalidQuantity) := by
  rw [authorizeInference_fst]
  unfold authorizeDecision
  cases hC : COSTS mode with
  | none =>
    simp [hrl, hgrant, getInferenceCost, hC]
  | some unit =>
    have hq : quantity ≤ 0 := by
      rcases hbad with h | h
      · rw [hC] at h
        cases h
      · exact h
    simp [hrl, hgrant, getInferenceCost, hC, hq]

/-- Witness for the amended C5: a user with credits (so no initial grant)
requesting an unknown mode gets the unknown-mode validation error. -/
theorem validation_error_witness :
    (authorizeInference credChain initState 0 "0xabc" "bogus" 1).1 =
      .error OracleError.unknownMode :=
  validation_error_after_branches credChain initState 0 "0xabc" "bogus" 1 rfl rfl
    (Or.inl rfl)

/-- Claim C6 counterexample: a decision settled via subscription carries
`cost = 0`, not the would-be credit cost `unitCost("basic") * 5 = 5`. -/
theorem cost_field_counterexample :
    (authorizeInference subChain initState 0 "0xabc" "basic" 5).1 =
      .ok ⟨true, "subscription", "within_subscription_cap", 0⟩ ∧
    COSTS "basic" = some 1 ∧ ((1 * 5 : Int) ≠ 0) := ⟨rfl, rfl, by decide⟩

/-- Claim C6 as amended: the `cost` field of a returned decision equals
`unitCost(mode) * quantity` exactly for decisions settled via credits or
the final insufficient-balance deny; decisions settled via subscription,
initial grant, or rate limiting carry `cost = 0`. -/
theorem cost_field_by_method
    (c : Chain) (st : OracleState) (now : Nat) (user mode : String)
    (quantity unit : Int) (d : Decision)
    (hmode : COSTS mode = some unit)
    (hok : (authorizeInference c st now user mode quantity).1 = .ok d) :
    ((d.method = "credits" ∨ d.reason = "insufficient_balance_and_cap") →
        d.cost = unit * quantity) ∧
    ((d.method = "subscription" ∨ d.method = "initial_grant" ∨
        d.reason = "rate_limited") → d.cost = 0) := by
  rw [authorizeInference_fst] at hok
  rcases authorizeDecision_cases c st now user mode quantity d hok with
      h | h | h | h | ⟨cost, hc, h | h⟩
  · subst h
    exact ⟨fun ha => by rcases ha with ha | ha <;> exact absurd ha (by decide),
           fun _ => rfl⟩
  · subst h
    exact ⟨fun ha => by rcases ha with ha | ha <;> exact absurd ha (by decide),
           fun _ => rfl⟩
  · subst h
    exact ⟨fun ha => by rcases ha with ha | ha <;> exact absurd ha (by decide),
           fun _ => rfl⟩
  · subst h
    exact ⟨fun ha => by rcases ha with ha | ha <;> exact absurd ha (by decide),
           fun _ => rfl⟩
  · subst h
    exact ⟨fun _ => getInferenceCost_ok_inv hmode hc,
           fun hb => by rcases hb with hb | hb | hb <;> simp at hb⟩
  · subst h
    exact ⟨fun _ => getInferenceCost_ok_inv hmode hc,
           fun hb => by rcases hb with hb | hb | hb <;> simp at hb⟩

/-- Witness for the amended C6: the insufficient-balance deny for
`tags × 3` against a balance of 5 carries `cost = 2 * 3`. -/
theorem cost_field_witness :
    ((⟨false, "deny", "insufficient_balance_and_cap", 6⟩ : Decision)).cost = 2 * 3 :=
  (cost_field_by_method credChain5 initState 0 "0xabc" "tags" 3 2
    ⟨false, "deny", "insufficient_balance_and_cap", 6⟩ rfl rfl).1 (Or.inr rfl)

/-- Claim C7: a failing subscription read degrades to no subscription
(`none`), a failing balance read degrades to a zero balance, and no read
failure escapes — with a known mode and positive quantity the call always
returns a structured decision. -/
theorem read_failures_degrade
    (c : Chain) (st : OracleState) (now : Nat) (user mode : String)
    (quantity unit : Int)
    (hmode : COSTS mode = some unit) (hq : 0 < quantity) :
    (c.getUserSubscriptionRaw user = .error () → getUserSubscription c user = none) ∧
    (c.getUserCreditsRaw user = .error () → getUserCredits c user = 0) ∧
    (∃ d, (authorizeInference c st now user mode quantity).1 = .ok d) := by
  refine ⟨fun h => ?_, fun h => ?_, ?_⟩
  · simp [getUserSubscription, h]
  · simp [getUserCredits, h]
  · simp only [authorizeInference_fst]
    exact authorizeDecision_ok_of_valid c st now user mode quantity unit hmode hq

/-- Witness for C7: against a ledger whose every read fails, the degraded
values are observed and the call still returns a decision. -/
theorem read_failures_witness :
    getUserSubscription emptyChain "0xabc" = none ∧
    getUserCredits emptyChain "0xabc" = 0 ∧
    ∃ d, (authorizeInference emptyChain initState 0 "0xabc" "basic" 1).1 = .ok d := by
  have h := read_failures_degrade emptyChain initState 0 "0xabc" "basic" 1 1 rfl
    (by decide)
  exact ⟨h.1 rfl, h.2.1 rfl, h.2.2⟩

/-- Claim C8: the cost table maps `basic/tags/price_accuracy/full` to unit
costs `1/2/4/6` with `cost = unit * quantity` for positive quantities,
monotonically non-decreasing in the quantity; an unknown mode raises the
unknown-mode error and a non-positive quantity the invalid-quantity error
(the non-finite case of the claim is vacuous over integers). -/
theorem cost_contract :
    (∀ q : Int, 0 < q →
      getInferenceCost "basic" q = .ok (1 * q) ∧
      getInferenceCost "tags" q = .ok (2 * q) ∧
      getInferenceCost "price_accuracy" q = .ok (4 * q) ∧
      getInferenceCost "full" q = .ok (6 * q)) ∧
    (∀ (mode : String) (q₁ q₂ r₁ r₂ : Int), 0 < q₁ → q₁ ≤ q₂ →
      getInferenceCost mode q₁ = .ok r₁ → getInferenceCost mode q₂ = .ok r₂ →
      r₁ ≤ r₂) ∧
    (∀ (mode : String) (q : Int), COSTS mode = none →
      getInferenceCost mode q = .error OracleError.unknownMode) ∧
    (∀ (mode : String) (unit q : Int), COSTS mode = some unit → q ≤ 0 →
      getInferenceCost mode q = .error OracleError.invalidQuantity) := by
  refine ⟨fun q hq => ?_, fun mode q₁ q₂ r₁ r₂ hq₁ hle h₁ h₂ => ?_,
      fun mode q h => ?_, fun mode unit q h hq => ?_⟩
  · exact ⟨getInferenceCost_ok q rfl hq, getInferenceCost_ok q rfl hq,
      getInferenceCost_ok q rfl hq, getInferenceCost_ok q rfl hq⟩
  · cases hC : COSTS mode with
    | none => simp [getInferenceCost, hC] at h₁
    | some unit =>
      have e₁ : r₁ = unit * q₁ := getInferenceCost_ok_inv hC h₁
      have e₂ : r₂ = unit * q₂ := getInferenceCost_ok_inv hC h₂
      have hu : 0 < unit := COSTS_unit_pos hC
      rw [e₁, e₂]
      exact mul_le_mul_of_nonneg_left hle (le_of_lt hu)
  · simp [getInferenceCost, h]
  · simp [getInferenceCost, h, hq]

/-- Witness for C8: `basic × 3` costs 3. -/
theorem cost_contract_witness :
    getInferenceCost "basic" 3 = .ok (1 * 3) :=
  (cost_contract.1 3 (by decide)).1

/-- Claim C9: `calculateCredits` (a pure function of its two arguments)
floors `parameter / promptsPerCredit` for the streak and inference
reasons, multiplies by the referral amount for referrals, caps social
quests at `MAX_SOCIAL_QUESTS_PER_USER` before multiplying (so
`social_quest 8 = 10`), and is the identity on the parameter for every
other reason. -/
theorem calculateCredits_spec :
    (∀ p : Int,
      calculateCredits "prompt_streak" p =
        Int.fdiv p AI_INFERENCE_PROMPTS_PER_CREDIT ∧
      calculateCredits "ai_inference" p =
        Int.fdiv p AI_INFERENCE_PROMPTS_PER_CREDIT ∧
      calculateCredits "referral" p = p * REFERRAL_CREDIT_AMOUNT ∧
      calculateCredits "social_quest" p =
        min p MAX_SOCIAL_QUESTS_PER_USER * SOCIAL_QUEST_CREDIT_AMOUNT) ∧
    calculateCredits "social_quest" 8 = 10 ∧
    (∀ (reason : String) (p : Int), reason ≠ "prompt_streak" →
      reason ≠ "ai_inference" → reason ≠ "referral" → reason ≠ "social_quest" →
      calculateCredits reason p = p) := by
  refine ⟨fun p => ⟨?_, ?_, ?_, ?_⟩, by decide, fun reason p h1 h2 h3 h4 => ?_⟩
  · simp [calculateCredits]
  · simp [calculateCredits]
  · simp [calculateCredits]
  · simp [calculateCredits]
  · simp [calculateCredits, h1, h2, h3, h4]

/-- Witness for C9: an unrecognized reason falls through to the identity. -/
theorem calculateCredits_witness :
    calculateCredits "bonus" 7 = 7 :=
  calculateCredits_spec.2.2 "bonus" 7 (by decide) (by decide) (by decide) (by decide)

/-- Claim C10: in every decision `authorizeInference` returns, `allowed`
is true exactly when the method is not `deny`; allowed decisions use
method `subscription`, `credits` or `initial_grant`, and disallowed ones
use `deny`. -/
theorem allowed_iff_not_deny
    (c : Chain) (st : OracleState) (now : Nat) (user mode : String)
    (quantity : Int) (d : Decision)
    (hok : (authorizeInference c st now user mode quantity).1 = .ok d) :
    (d.allowed = true ↔ d.method ≠ "deny") ∧
    (d.allowed = true → (d.method = "subscription" ∨ d.method = "credits" ∨
        d.method = "initial_grant")) ∧
    (d.allowed = false → d.method = "deny") := by
  rw [authorizeInference_fst] at hok
  rcases authorizeDecision_cases c st now user mode quantity d hok with
      h | h | h | h | ⟨cost, hc, h | h⟩ <;> subst h <;>
    exact ⟨by simp, by simp, by simp⟩

/-- Witness for C10 at a concrete credits decision. -/
theorem allowed_iff_not_deny_witness :
    ((⟨true, "credits", "sufficient_credits", (6 : Int)⟩ : Decision).allowed = true ↔
      (⟨true, "credits", "sufficient_credits", (6 : Int)⟩ : Decision).method ≠ "deny") ∧
    ((⟨true, "credits", "sufficient_credits", (6 : Int)⟩ : Decision).allowed = true →
      ((⟨true, "credits", "sufficient_credits", (6 : Int)⟩ : Decision).method = "subscription" ∨
       (⟨true, "credits", "sufficient_credits", (6 : Int)⟩ : Decision).method = "credits" ∨
       (⟨true, "credits", "sufficient_credits", (6 : Int)⟩ : Decision).method = "initial_grant")) ∧
    ((⟨true, "credits", "sufficient_credits", (6 : Int)⟩ : Decision).allowed = false →
      (⟨true, "credits", "sufficient_credits", (6 : Int)⟩ : Decision).method = "deny") :=
  allowed_iff_not_deny credChain initState 0 "0xabc" "tags" 3
    ⟨true, "credits", "sufficient_credits", 6⟩ rfl

end RavenOracle
